import Mathlib

deriving instance DecidableEq for Except

set_option maxRecDepth 10000

/-!
Verification of the NBA lineup analytics app (src/app.py).

The app loads a pandas DataFrame of 5-man lineup statistics, derives a
categorical `minute_bucket` column, computes four summary views
(`overall_summary`, `bucket_summary`, `pace_offense_summary`,
`top_lineups_preview`) and assembles them, together with the user's
question, into the message payload sent to an external model.

Embedding choices (all justified next to the definition they concern):
* A DataFrame is a `Table`: one Bool per optional column (presence of the
  column in the frame) plus a list of `Row`s whose cells are `Option Rat`
  (`none` is pandas NaN / a missing value; `pd.to_numeric(errors="coerce")`
  of the loader is modelled by the cells already being `Option Rat`).
* Machine floats are modelled by `Rat`; `round(x, d)` (Python / numpy
  round-half-to-even) is `roundTo d`.
* A pandas operation that raises (e.g. `KeyError` on a missing column) is
  `Except.error`; the exact Python message text is abbreviated, only the
  error/ok distinction is meaningful.
* `minute_bucket` is the five-label categorical produced by `pd.cut`
  (`load_data` derives it when absent), so `groupby("minute_bucket")`
  enumerates all five categories in order (pandas categorical groupby with
  the default `observed=False`), dropping rows whose bucket is missing
  (default `dropna=True`).
* `sort_values("net_rating", ascending=False)` is modelled by an insertion
  sort with the relation "net_rating of the left is ≥ net_rating of the
  right".  pandas' default `kind="quicksort"` guarantees the output is a
  permutation of the input sorted by the key, which is all that is used in
  the theorems below; the tie order of the model (stable) is a modelling
  choice and no theorem below relies on it.
-/

namespace NBA

/-- Fixed five-label categorical produced by
`pd.cut(df["min"], bins=[0, 50, 100, 200, 400, np.inf], labels=..., right=False)`. -/
inductive Bucket : Type
  | b0_50
  | b50_100
  | b100_200
  | b200_400
  | b400plus
deriving DecidableEq, Repr

/-- Display label of a bucket, exactly the `labels` list of `load_data`. -/
def Bucket.label : Bucket → String
  | .b0_50 => "0–50"
  | .b50_100 => "50–100"
  | .b100_200 => "100–200"
  | .b200_400 => "200–400"
  | .b400plus => "400+"

/-- The categories in their categorical (ascending) order; this is the order
pandas uses for the groups of `groupby("minute_bucket")`. -/
def allBuckets : List Bucket :=
  [.b0_50, .b50_100, .b100_200, .b200_400, .b400plus]

/-- One row of the lineup DataFrame.  Cells are `Option`s: `none` is a
missing value (NaN).  For a column that is absent from the frame the
`Table` flag below is authoritative and the cell content is ignored. -/
structure Row : Type where
  group_name : Option String := none
  min : Option Rat := none
  net_rating : Option Rat := none
  off_rating : Option Rat := none
  def_rating : Option Rat := none
  pace : Option Rat := none
  minute_bucket : Option Bucket := none
deriving DecidableEq, Repr

/-- The loaded DataFrame: presence flags for the columns the app touches,
plus the rows.  `group_name` and `min` are mandatory per the loader's
contract but the flags keep the embedding faithful to the `in df.columns`
checks of the source. -/
structure Table : Type where
  hasGroupName : Bool := true
  hasMin : Bool := true
  hasNetRating : Bool := true
  hasOffRating : Bool := true
  hasDefRating : Bool := true
  hasPace : Bool := true
  hasMinuteBucket : Bool := true
  rows : List Row := []
deriving DecidableEq, Repr

/-- Bucket assignment of `pd.cut(value, bins=[0,50,100,200,400,inf],
right=False)`: half-open intervals, closed on the left; a value in no bin
(negative) gets NaN. -/
def bucketOf (m : Rat) : Option Bucket :=
  if 0 ≤ m ∧ m < 50 then some .b0_50
  else if 50 ≤ m ∧ m < 100 then some .b50_100
  else if 100 ≤ m ∧ m < 200 then some .b100_200
  else if 200 ≤ m ∧ m < 400 then some .b200_400
  else if 400 ≤ m then some .b400plus
  else none

/-- Per-row effect of `df["minute_bucket"] = pd.cut(df["min"], ...)`:
a missing `min` yields a missing bucket. -/
def deriveBucket (r : Row) : Row :=
  { r with minute_bucket := r.min.bind bucketOf }

/-- Lines 62-65 of `load_data`: when the `minute_bucket` column is absent it
is derived from `min`; otherwise the frame is returned unchanged.  (The
numeric coercion of lines 58-60 is modelled by the cells already being
`Option Rat`.) -/
def load_data (t : Table) : Table :=
  if t.hasMinuteBucket then t
  else { t with hasMinuteBucket := true, rows := t.rows.map deriveBucket }

/-- Mean with pandas `skipna` semantics: the mean of an empty list is NaN
(`none`); the caller passes the list of present values. -/
def mean (l : List Rat) : Option Rat :=
  if l.isEmpty then none else some (l.sum / (l.length : Rat))

/-- Round half to even to an integer (the rounding mode of Python's built-in
`round` and of numpy's `round`). -/
def rhe (x : Rat) : Int :=
  if x - (x.floor : Rat) < 1/2 then x.floor
  else if 1/2 < x - (x.floor : Rat) then x.floor + 1
  else if x.floor % 2 = 0 then x.floor else x.floor + 1

/-- Python's `round(x, d)` on exact values: round half to even at the `d`-th
decimal. -/
def roundTo (d : Nat) (x : Rat) : Rat :=
  ((rhe (x * (10 : Rat) ^ d) : Int) : Rat) / (10 : Rat) ^ d

/-- Present values of the `net_rating` column. -/
def netVals (l : List Row) : List Rat :=
  l.filterMap fun r => r.net_rating

/-- Present values of the `min` column. -/
def minVals (l : List Row) : List Rat :=
  l.filterMap fun r => r.min

/-- Result record of `overall_summary` (a Python dict in the source). -/
structure Overall : Type where
  total_lineups : Nat
  avg_net_rating : Option Rat
  avg_minutes : Option Rat
deriving DecidableEq, Repr

/-- Lines 74-79: total row count, mean `net_rating` rounded to 2 decimals,
mean `min` rounded to 1 decimal.  `df["net_rating"]` (and then `df["min"]`)
raises `KeyError` when the column is absent; the mean of an all-missing
column is NaN and `round` keeps it NaN. -/
def overall_summary (t : Table) : Except String Overall :=
  if t.hasNetRating = false then .error "KeyError: net_rating"
  else if t.hasMin = false then .error "KeyError: min"
  else .ok
    { total_lineups := t.rows.length
      avg_net_rating := (mean (netVals t.rows)).map (roundTo 2)
      avg_minutes := (mean (minVals t.rows)).map (roundTo 1) }

/-- Rows of the group of bucket `b` under `groupby("minute_bucket")`
(rows whose bucket is missing belong to no group: default `dropna=True`). -/
def rowsInBucket (l : List Row) (b : Bucket) : List Row :=
  l.filter fun r => r.minute_bucket = some b

/-- One output row of `bucket_summary`. -/
structure BucketRow : Type where
  minute_bucket : Bucket
  lineups : Nat
  avg_net_rating : Option Rat
  avg_minutes : Option Rat
deriving DecidableEq, Repr

/-- Lines 81-93: group by the categorical `minute_bucket` (one group per
category, in categorical order, zero-count groups included: pandas default
`observed=False`), count the non-missing `net_rating` values per group,
mean `net_rating` rounded to 2 decimals, mean `min` rounded to 1 decimal.
`groupby`/`agg` raise `KeyError` when a named column is absent. -/
def bucket_summary (t : Table) : Except String (List BucketRow) :=
  if t.hasMinuteBucket = false then .error "KeyError: minute_bucket"
  else if t.hasNetRating = false then .error "KeyError: net_rating"
  else if t.hasMin = false then .error "KeyError: min"
  else .ok <| allBuckets.map fun b =>
    let g := rowsInBucket t.rows b
    { minute_bucket := b
      lineups := (netVals g).length
      avg_net_rating := (mean (netVals g)).map (roundTo 2)
      avg_minutes := (mean (minVals g)).map (roundTo 1) }

/-- One output row of `pace_offense_summary`. -/
structure PaceRow : Type where
  minute_bucket : Bucket
  lineups : Nat
  avg_pace : Option Rat
  avg_off_rating : Option Rat
deriving DecidableEq, Repr

/-- Row predicate of `dropna(subset=["minute_bucket", "pace", "off_rating"])`. -/
def paceKept (r : Row) : Bool :=
  r.minute_bucket.isSome && r.pace.isSome && r.off_rating.isSome

/-- Lines 95-108: drop rows missing any of `minute_bucket`, `pace`,
`off_rating` (`dropna` raises `KeyError` when a subset column is absent from
the frame), then group by the categorical bucket (all five categories, as in
`bucket_summary`): count of non-missing `off_rating`, mean `pace` and mean
`off_rating` rounded to 2 decimals. -/
def pace_offense_summary (t : Table) : Except String (List PaceRow) :=
  if t.hasMinuteBucket = false then .error "KeyError: minute_bucket"
  else if t.hasPace = false then .error "KeyError: pace"
  else if t.hasOffRating = false then .error "KeyError: off_rating"
  else
    let kept := t.rows.filter paceKept
    .ok <| allBuckets.map fun b =>
      let g := rowsInBucket kept b
      { minute_bucket := b
        lineups := (g.filterMap fun r => r.off_rating).length
        avg_pace := (mean (g.filterMap fun r => r.pace)).map (roundTo 2)
        avg_off_rating := (mean (g.filterMap fun r => r.off_rating)).map (roundTo 2) }

/-- Sort key of `sort_values("net_rating", ascending=False)`; every row
reaching the sort has a present `net_rating` (the `dropna` ran first), so the
default is never observed there. -/
def netKey (r : Row) : Rat :=
  r.net_rating.getD 0

/-- Row predicate of `df[df["min"] >= min_minutes]`: a missing `min`
compares false (pandas NaN comparison semantics). -/
def minFilter (min_minutes : Rat) (r : Row) : Bool :=
  match r.min with
  | some v => decide (min_minutes ≤ v)
  | none => false

/-- Descending-by-`net_rating` order used to model `sort_values`. -/
def netGE (a b : Row) : Prop :=
  netKey b ≤ netKey a

instance : DecidableRel netGE := fun a b =>
  inferInstanceAs (Decidable (netKey b ≤ netKey a))

instance : IsTotal Row netGE :=
  ⟨fun a b => le_total (netKey b) (netKey a)⟩

instance : IsTrans Row netGE :=
  ⟨fun _ _ _ h1 h2 => le_trans h2 h1⟩

/-- Per-row effect of the column projection (`loc[:, cols]`, a column absent
from the frame is not selected) followed by the rounding loop of lines
120-122: every numeric column present is rounded to 2 decimals. -/
def previewRound (t : Table) (r : Row) : Row :=
  { group_name := if t.hasGroupName then r.group_name else none
    min := if t.hasMin then r.min.map (roundTo 2) else none
    net_rating := if t.hasNetRating then r.net_rating.map (roundTo 2) else none
    off_rating := if t.hasOffRating then r.off_rating.map (roundTo 2) else none
    def_rating := if t.hasDefRating then r.def_rating.map (roundTo 2) else none
    pace := if t.hasPace then r.pace.map (roundTo 2) else none
    minute_bucket := if t.hasMinuteBucket then r.minute_bucket else none }

/-- Lines 110-123: keep rows with `min >= min_minutes` (`KeyError` when the
`min` column is absent), drop rows with missing `net_rating` (`KeyError`
when absent), sort descending by `net_rating`, project the present columns,
take the first `n` rows and round the numeric columns to 2 decimals. -/
def top_lineups_preview (t : Table) (n : Nat) (min_minutes : Rat) :
    Except String (List Row) :=
  if t.hasMin = false then .error "KeyError: min"
  else if t.hasNetRating = false then .error "KeyError: net_rating"
  else
    let filtered := t.rows.filter (minFilter min_minutes)
    let kept := filtered.filter fun r => r.net_rating.isSome
    let sorted := List.insertionSort netGE kept
    .ok ((sorted.take n).map (previewRound t))

/-- Verbatim content of the `SYSTEM` string of lines 33-48: the fixed
instructional preamble (data dictionary plus the use-only-the-context
constraint).  It is passed to the model as a separate system message. -/
def SYSTEM : String :=
  "\nYou are an NBA lineup analytics assistant.\n\nData dictionary:\n- group_name: the 5-player lineup (player names)\n- min: total minutes played by that lineup\n- net_rating: points per 100 possessions (offense - defense) for that lineup\n- off_rating: points scored per 100 possessions\n- def_rating: points allowed per 100 possessions\n- pace: estimated possessions per 48 minutes\n- minute_bucket: a categorical bucket based on min (e.g., 0–50, 50–100, ...)\n\nUse only the provided context tables to answer.\nIf the context does not include the needed data, say what table/summary is missing.\nBe concise and cite numbers from the tables.\n"

/-- Rendering of one cell: a missing value prints as NaN.  The decimal
formatting of numerals (and the column alignment pandas `to_string` adds)
is abstracted; no theorem below depends on how a number is formatted, only
on which sections the context contains and in which order. -/
def renderCell : Option Rat → String
  | none => "NaN"
  | some q => toString q

/-- Rendering of the `overall_summary` dict (`str(dict)` in the f-string;
the brace-delimited dict syntax is abstracted as a key-value listing). -/
def renderOverall (o : Overall) : String :=
  "total_lineups: " ++ toString o.total_lineups ++ ", avg_net_rating: " ++
    renderCell o.avg_net_rating ++ ", avg_minutes: " ++ renderCell o.avg_minutes

/-- Rendering of `bucket_summary().to_string(index=False)`. -/
def renderBucketTable (l : List BucketRow) : String :=
  l.foldl
    (fun acc br =>
      acc ++ "\n" ++ br.minute_bucket.label ++ " " ++ toString br.lineups ++ " " ++
        renderCell br.avg_net_rating ++ " " ++ renderCell br.avg_minutes)
    "minute_bucket lineups avg_net_rating avg_minutes"

/-- Rendering of `pace_offense_summary().to_string(index=False)`. -/
def renderPaceTable (l : List PaceRow) : String :=
  l.foldl
    (fun acc pr =>
      acc ++ "\n" ++ pr.minute_bucket.label ++ " " ++ toString pr.lineups ++ " " ++
        renderCell pr.avg_pace ++ " " ++ renderCell pr.avg_off_rating)
    "minute_bucket lineups avg_pace avg_off_rating"

/-- Rendering of `top_lineups_preview(...).to_string(index=False)`. -/
def renderTopTable (l : List Row) : String :=
  l.foldl
    (fun acc r =>
      acc ++ "\n" ++ r.group_name.getD "NaN" ++ " " ++ renderCell r.min ++ " " ++
        renderCell r.pace ++ " " ++ renderCell r.net_rating ++ " " ++
        renderCell r.off_rating ++ " " ++ renderCell r.def_rating ++ " " ++
        (match r.minute_bucket with
          | some b => b.label
          | none => "NaN"))
    "group_name min pace net_rating off_rating def_rating minute_bucket"

/-- Lines 129-142 of `ask`: the f-string assembling the grounding context.
The four summaries are evaluated in source order (an exception in any of
them propagates, hence the `Except` bind); the literal section headers and
the blank lines between sections are reproduced exactly. -/
def mkContext (t : Table) : Except String String := do
  let o ← overall_summary t
  let b ← bucket_summary t
  let p ← pace_offense_summary t
  let tl ← top_lineups_preview t 15 100
  return "\nOverall summary:\n" ++ renderOverall o ++
    "\n\nBy minute bucket:\n" ++ renderBucketTable b ++
    "\n\n\nPace vs offensive rating by minute bucket:\n" ++ renderPaceTable p ++
    "\n\nTop lineups (includes group_name = players):\n" ++ renderTopTable tl ++ "\n"

/-- Lines 144-151 of `ask`: the role-tagged message payload handed to the
external model client — system preamble, then the raw question, then the
assembled context, as three separate messages. -/
def ask_messages (t : Table) (question : String) :
    Except String (List (String × String)) := do
  let ctx ← mkContext t
  return [("system", SYSTEM), ("user", question), ("user", ctx)]

/-- Executable substring occurrence test on character lists (used to state
what the assembled context does and does not contain). -/
def subOccurs : List Char → List Char → Bool
  | pat, [] => pat.isPrefixOf []
  | pat, _c :: rest => pat.isPrefixOf (_c :: rest) || subOccurs pat rest

/-- String-level substring occurrence. -/
def containsStr (pat s : String) : Bool :=
  subOccurs pat.data s.data

/-- Whether the context assembled for table `t` contains the instructional
preamble (either the whole `SYSTEM` block, or its data-dictionary heading,
or its use-only-the-context instruction); `none` when assembly raises. -/
def contextHasPreamble (t : Table) : Option Bool :=
  (mkContext t).toOption.map fun ctx =>
    containsStr SYSTEM ctx || containsStr "Data dictionary" ctx ||
      containsStr "Use only the provided context" ctx

/-- Membership of a value in one of the five half-open ranges of the spec:
[0,50), [50,100), [100,200), [200,400), [400,∞). -/
def inRange (b : Bucket) (m : Rat) : Prop :=
  match b with
  | .b0_50 => 0 ≤ m ∧ m < 50
  | .b50_100 => 50 ≤ m ∧ m < 100
  | .b100_200 => 100 ≤ m ∧ m < 200
  | .b200_400 => 200 ≤ m ∧ m < 400
  | .b400plus => 400 ≤ m

/-- Sum of the per-bucket `lineups` counts reported by `bucket_summary`
(`none` when the summary raises). -/
def bucketCountSum (t : Table) : Option Nat :=
  (bucket_summary t).toOption.map fun l => (l.map fun br => br.lineups).sum

/-- The three-row table of the spec's Top-Lineups scenario, as produced by
the loader (no `minute_bucket` column in the input, so it is derived). -/
def tScenario1 : Table := load_data
  { hasMinuteBucket := false,
    rows := [
      { min := some 150, net_rating := some (-2) },
      { min := some 450, net_rating := some 3 },
      { min := some 60, net_rating := some 5 } ] }

/-- The four-row table of the spec's Overall-Summary scenario
(`min = [10, 60, 150, 450]`, `net_rating = [1, 5, -2, 3]`). -/
def tScenario6 : Table := load_data
  { hasMinuteBucket := false,
    rows := [
      { min := some 10, net_rating := some 1 },
      { min := some 60, net_rating := some 5 },
      { min := some 150, net_rating := some (-2) },
      { min := some 450, net_rating := some 3 } ] }

/-- One-row table whose `min` (100.004 = 25001/250) carries more than two
decimal places, with a threshold equal to it. -/
def tThreshold : Table :=
  { rows := [
      { min := some (25001/250), net_rating := some 1,
        minute_bucket := some .b100_200 } ] }

/-- A loaded table whose `off_rating` column is absent (the column is
optional per the loader's contract; other columns present). -/
def tNoOff : Table :=
  { hasOffRating := false,
    rows := [
      { min := some 150, net_rating := some 3, pace := some 99,
        minute_bucket := some .b100_200 } ] }

/-- A loaded table with all columns present and no rows. -/
def tEmpty : Table := { rows := [] }

/-- One-row table whose single row has a present `net_rating` but a missing
`min` (hence a missing `minute_bucket`). -/
def tMissingMin : Table :=
  { rows := [ { net_rating := some 1 } ] }

/-- Pre-load one-row table without a `minute_bucket` column; its single row
falls in the first bucket, leaving the other four buckets empty. -/
def tOneRow : Table :=
  { hasMinuteBucket := false,
    rows := [ { min := some 10, net_rating := some 1 } ] }

/-! Supporting lemmas (shared; none of these is a claim theorem). -/

/-- The substring test decides the `List.IsInfix` relation. -/
theorem subOccurs_iff (p : List Char) : ∀ l, subOccurs p l = true ↔ p <:+: l
  | [] => by
    simp [subOccurs, List.infix_nil, List.isPrefixOf_iff_prefix, List.prefix_nil]
  | c :: rest => by
    simp [subOccurs, List.isPrefixOf_iff_prefix, List.infix_cons_iff,
      subOccurs_iff p rest]

/-- Cast form of floor's defining property. -/
theorem floor_cast_le (x : Rat) : (Rat.floor x : Rat) ≤ x :=
  Rat.le_floor.mp le_rfl

/-- A rational is below its floor plus one. -/
theorem lt_floor_add_one' (x : Rat) : x < (Rat.floor x : Rat) + 1 := by
  by_contra hc
  push_neg at hc
  have h1 : ((Rat.floor x + 1 : Int) : Rat) ≤ x := by push_cast; linarith
  have h2 := Rat.le_floor.mpr h1
  omega

/-- Monotonicity of `Rat.floor`. -/
theorem floor_mono' {x y : Rat} (h : x ≤ y) : Rat.floor x ≤ Rat.floor y :=
  Rat.le_floor.mpr ((floor_cast_le x).trans h)

/-- Round-half-even is at least the floor. -/
theorem rhe_ge_floor (x : Rat) : Rat.floor x ≤ rhe x := by
  unfold rhe
  split_ifs <;> omega

/-- Round-half-even is at most the floor plus one. -/
theorem rhe_le_floor_add_one (x : Rat) : rhe x ≤ Rat.floor x + 1 := by
  unfold rhe
  split_ifs <;> omega

/-- Round-half-even is monotone. -/
theorem rhe_mono {x y : Rat} (h : x ≤ y) : rhe x ≤ rhe y := by
  rcases eq_or_lt_of_le (floor_mono' h) with heq | hlt
  · unfold rhe
    rw [← heq]
    split_ifs <;> first | omega | (exfalso; linarith)
  · have h1 := rhe_le_floor_add_one x
    have h2 := rhe_ge_floor y
    omega

/-- Rounding to a fixed number of decimals is monotone. -/
theorem roundTo_mono (d : Nat) {x y : Rat} (h : x ≤ y) :
    roundTo d x ≤ roundTo d y := by
  unfold roundTo
  have hp : (0 : Rat) < (10 : Rat) ^ d := by positivity
  have hm := rhe_mono (mul_le_mul_of_nonneg_right h (le_of_lt hp))
  exact (div_le_div_iff_of_pos_right hp).mpr (by exact_mod_cast hm)

/-- No value lies in two distinct ranges of the partition. -/
theorem inRange_unique {m : Rat} {b b2 : Bucket}
    (hb : inRange b m) (hb2 : inRange b2 m) : b = b2 := by
  cases b <;> cases b2 <;> simp only [inRange] at hb hb2 <;>
    first
      | rfl
      | (exfalso; linarith [hb.1, hb.2, hb2.1, hb2.2])
      | (exfalso; linarith [hb.1, hb.2, hb2])
      | (exfalso; linarith [hb, hb2.1, hb2.2])

/-- The sort key of a projected-and-rounded row is the rounded sort key. -/
theorem netKey_previewRound {t : Table} (h : t.hasNetRating = true) (r : Row) :
    netKey (previewRound t r) = roundTo 2 (netKey r) := by
  have h0 : roundTo 2 (0 : Rat) = 0 := by with_unfolding_all decide
  unfold netKey previewRound
  rw [h]
  cases hr : r.net_rating <;> simp [hr, h0]

/-! Claim theorems. -/

/-- Claim C2 — for every present `min` value `m` (which the data model
constrains to `m ≥ 0`), the loader's derived bucket assignment maps `m`
into exactly one of the five fixed half-open ranges; `m = 50` is assigned
the bucket 50–100 and not 0–50; and a row with a missing `min` gets a
missing bucket value. -/
theorem claim2_minute_bucket_partition :
    (∀ m : Rat, 0 ≤ m →
        ∃ b : Bucket, bucketOf m = some b ∧ inRange b m ∧
          ∀ b2 : Bucket, inRange b2 m → b2 = b) ∧
    bucketOf 50 = some Bucket.b50_100 ∧
    (∀ r : Row, r.min = none → (deriveBucket r).minute_bucket = none) := by
  refine ⟨?_, by with_unfolding_all decide, ?_⟩
  · intro m hm
    unfold bucketOf
    split_ifs with h1 h2 h3 h4 h5
    · exact ⟨.b0_50, rfl, h1, fun b2 hb2 => inRange_unique hb2 h1⟩
    · exact ⟨.b50_100, rfl, h2, fun b2 hb2 => inRange_unique hb2 h2⟩
    · exact ⟨.b100_200, rfl, h3, fun b2 hb2 => inRange_unique hb2 h3⟩
    · exact ⟨.b200_400, rfl, h4, fun b2 hb2 => inRange_unique hb2 h4⟩
    · exact ⟨.b400plus, rfl, h5, fun b2 hb2 => inRange_unique hb2 h5⟩
    · exfalso
      push_neg at h1 h2 h3 h4
      have a1 : 50 ≤ m := h1 hm
      have a2 : 100 ≤ m := h2 (by linarith)
      have a3 : 200 ≤ m := h3 (by linarith)
      have a4 : 400 ≤ m := h4 (by linarith)
      exact h5 a4
  · intro r hr
    simp [deriveBucket, hr]

/-- Witness for C2 at the concrete value m = 137. -/
theorem claim2_minute_bucket_partition_witness :
    (0 : Rat) ≤ 137 ∧
    ∃ b : Bucket, bucketOf 137 = some b ∧ inRange b 137 ∧
      ∀ b2 : Bucket, inRange b2 137 → b2 = b :=
  ⟨by norm_num, claim2_minute_bucket_partition.1 137 (by norm_num)⟩

/-- Claim C6 — `overall_summary` reports the total row count, the
exclude-missing mean of `net_rating` rounded to 2 decimals and the
exclude-missing mean of `min` rounded to 1 decimal; on the spec's scenario
rows (`net_rating = [1, 5, -2, 3]`, `min = [10, 60, 150, 450]`) it reports
`total_lineups = 4` and `avg_net_rating = 7/4 = 1.75`. -/
theorem claim6_overall_summary :
    (∀ t : Table, t.hasNetRating = true → t.hasMin = true →
        ∃ o, overall_summary t = .ok o ∧
          o.total_lineups = t.rows.length ∧
          (o.avg_net_rating = none ↔ netVals t.rows = []) ∧
          (∀ s, mean (netVals t.rows) = some s →
            o.avg_net_rating = some (roundTo 2 s)) ∧
          (o.avg_minutes = none ↔ minVals t.rows = []) ∧
          (∀ s, mean (minVals t.rows) = some s →
            o.avg_minutes = some (roundTo 1 s))) ∧
    overall_summary tScenario6 =
      .ok { total_lineups := 4, avg_net_rating := some (7/4 : Rat),
            avg_minutes := some (335/2 : Rat) } := by
  constructor
  · intro t h1 h2
    simp only [overall_summary, h1, h2, Bool.true_eq_false, if_false]
    refine ⟨_, rfl, rfl, ?_, ?_, ?_, ?_⟩
    · rcases hNV : netVals t.rows with _ | ⟨a, L⟩ <;> simp [mean]
    · intro s hs
      rw [hs]
      rfl
    · rcases hMV : minVals t.rows with _ | ⟨a, L⟩ <;> simp [mean]
    · intro s hs
      rw [hs]
      rfl
  · with_unfolding_all decide

/-- Witness for C6 at the scenario table. -/
theorem claim6_overall_summary_witness :
    ∃ o, overall_summary tScenario6 = .ok o ∧
      o.total_lineups = tScenario6.rows.length ∧
      (o.avg_net_rating = none ↔ netVals tScenario6.rows = []) ∧
      (∀ s, mean (netVals tScenario6.rows) = some s →
        o.avg_net_rating = some (roundTo 2 s)) ∧
      (o.avg_minutes = none ↔ minVals tScenario6.rows = []) ∧
      (∀ s, mean (minVals tScenario6.rows) = some s →
        o.avg_minutes = some (roundTo 1 s)) :=
  claim6_overall_summary.1 tScenario6 rfl rfl

/-- Reduction of `top_lineups_preview` when the needed columns are present. -/
theorem top_lineups_ok {t : Table} (h1 : t.hasMin = true)
    (h2 : t.hasNetRating = true) (n : Nat) (m : Rat) :
    top_lineups_preview t n m =
      .ok (((List.insertionSort netGE
          ((t.rows.filter (minFilter m)).filter fun r =>
            r.net_rating.isSome)).take n).map (previewRound t)) := by
  simp only [top_lineups_preview, h1, h2, Bool.true_eq_false, if_false]

/-- Every row surviving the filter-sort-take pipeline came from the table,
passed the `min` threshold, and has a present `net_rating`. -/
theorem mem_top_expr {t : Table} {n : Nat} {m : Rat} {r : Row}
    (hr : r ∈ (List.insertionSort netGE
        ((t.rows.filter (minFilter m)).filter fun r =>
          r.net_rating.isSome)).take n) :
    r ∈ t.rows ∧ (∃ v, r.min = some v ∧ m ≤ v) ∧ r.net_rating.isSome = true := by
  have h2 := List.mem_of_mem_take hr
  rw [(List.perm_insertionSort netGE _).mem_iff, List.mem_filter] at h2
  obtain ⟨h3, hnet⟩ := h2
  rw [List.mem_filter] at h3
  obtain ⟨hmem, hminf⟩ := h3
  refine ⟨hmem, ?_, hnet⟩
  unfold minFilter at hminf
  cases hv : r.min with
  | none => rw [hv] at hminf; exact absurd hminf (by simp)
  | some v => rw [hv] at hminf; exact ⟨v, rfl, of_decide_eq_true hminf⟩

/-- Claim C1 — `top_lineups_preview t n m` succeeds given the two needed
columns and returns at most `n` rows, each originating from a table row
with `min ≥ m` and a present `net_rating`, ordered non-increasing by
`net_rating`; the returned `min` cells are rounded to 2 decimals, so the
bound `m ≤` returned `min` needs `m` to be expressible with 2 decimals
(`roundTo 2 m = m`), which holds for the default threshold 100; on the
spec's three-row scenario with `n = 2, m = 100` the result is exactly the
row with `min = 450, net_rating = 3` followed by the row with
`min = 150, net_rating = -2`. -/
theorem claim1_top_lineups :
    (∀ (t : Table) (n : Nat) (m : Rat),
        t.hasMin = true → t.hasNetRating = true → roundTo 2 m = m →
        ∃ l, top_lineups_preview t n m = .ok l ∧
          l.length ≤ n ∧
          (∀ r ∈ l, ∃ v, r.min = some v ∧ m ≤ v) ∧
          (∀ r ∈ l, r.net_rating.isSome = true) ∧
          List.Sorted netGE l) ∧
    top_lineups_preview tScenario1 2 100 =
      .ok [ { group_name := none, min := some 450, net_rating := some 3,
              off_rating := none, def_rating := none, pace := none,
              minute_bucket := some .b400plus },
            { group_name := none, min := some 150, net_rating := some (-2),
              off_rating := none, def_rating := none, pace := none,
              minute_bucket := some .b100_200 } ] := by
  constructor
  · intro t n m h1 h2 hm
    refine ⟨_, top_lineups_ok h1 h2 n m, ?_, ?_, ?_, ?_⟩
    · rw [List.length_map]
      exact List.length_take_le n _
    · intro r hr
      rw [List.mem_map] at hr
      obtain ⟨r0, hr0, rfl⟩ := hr
      obtain ⟨-, ⟨v, hv, hmv⟩, -⟩ := mem_top_expr hr0
      refine ⟨roundTo 2 v, ?_, ?_⟩
      · simp [previewRound, h1, hv]
      · calc m = roundTo 2 m := hm.symm
          _ ≤ roundTo 2 v := roundTo_mono 2 hmv
    · intro r hr
      rw [List.mem_map] at hr
      obtain ⟨r0, hr0, rfl⟩ := hr
      obtain ⟨-, -, hnet⟩ := mem_top_expr hr0
      cases hq : r0.net_rating with
      | none => rw [hq] at hnet; exact absurd hnet (by simp)
      | some v => simp [previewRound, h2, hq]
    · have hs : List.Sorted netGE (List.insertionSort netGE
          ((t.rows.filter (minFilter m)).filter fun r => r.net_rating.isSome)) :=
        List.sorted_insertionSort netGE _
      have ht := hs.sublist (List.take_sublist n _)
      show List.Pairwise netGE _
      rw [List.pairwise_map]
      refine ht.imp ?_
      intro a b hab
      show netKey (previewRound t b) ≤ netKey (previewRound t a)
      rw [netKey_previewRound h2, netKey_previewRound h2]
      exact roundTo_mono 2 hab
  · with_unfolding_all decide

/-- Witness for C1 at the scenario input. -/
theorem claim1_top_lineups_witness :
    tScenario1.hasMin = true ∧ tScenario1.hasNetRating = true ∧
    roundTo 2 (100 : Rat) = 100 ∧
    (∃ l, top_lineups_preview tScenario1 2 100 = .ok l ∧
      l.length ≤ 2 ∧
      (∀ r ∈ l, ∃ v, r.min = some v ∧ (100 : Rat) ≤ v) ∧
      (∀ r ∈ l, r.net_rating.isSome = true) ∧
      List.Sorted netGE l) :=
  ⟨rfl, rfl, by with_unfolding_all decide,
    claim1_top_lineups.1 tScenario1 2 100 rfl rfl (by with_unfolding_all decide)⟩

/-- Counterexample to C1 as stated: with the threshold 100.004 (= 25001/250,
more than 2 decimal places) and one row whose `min` is exactly that value,
the row passes the filter but its returned `min` cell is rounded to 100,
which is strictly below the threshold — so "every returned row has
`min ≥ min_minutes`" fails on the returned data. -/
theorem claim1_threshold_counterexample :
    top_lineups_preview tThreshold 5 (25001/250) =
      .ok [ { group_name := none, min := some 100, net_rating := some 1,
              off_rating := none, def_rating := none, pace := none,
              minute_bucket := some .b100_200 } ] ∧
    (100 : Rat) < 25001/250 := by
  with_unfolding_all decide

/-- Claim C10 — a missing `min` never satisfies the pandas comparison
`df["min"] >= min_minutes`, so no row with a missing `min` reaches the
output of `top_lineups_preview`: every returned row has a present `min`. -/
theorem claim10_missing_min_excluded :
    ∀ (t : Table) (n : Nat) (m : Rat),
      t.hasMin = true → t.hasNetRating = true →
      (∀ r : Row, r.min = none → minFilter m r = false) ∧
      ∀ l, top_lineups_preview t n m = .ok l → ∀ r ∈ l, r.min.isSome = true := by
  intro t n m h1 h2
  constructor
  · intro r hr
    unfold minFilter
    rw [hr]
  · intro l hl r hr
    rw [top_lineups_ok h1 h2 n m] at hl
    injection hl with hl
    subst hl
    rw [List.mem_map] at hr
    obtain ⟨r0, hr0, rfl⟩ := hr
    obtain ⟨-, ⟨v, hv, -⟩, -⟩ := mem_top_expr hr0
    simp [previewRound, h1, hv]

/-- Witness for C10: a table whose single row has `net_rating` present but
`min` missing produces an empty preview for threshold 0. -/
theorem claim10_missing_min_excluded_witness :
    ((∀ r : Row, r.min = none → minFilter 0 r = false) ∧
      ∀ l, top_lineups_preview tMissingMin 5 0 = .ok l →
        ∀ r ∈ l, r.min.isSome = true) ∧
    top_lineups_preview tMissingMin 5 0 = .ok [] :=
  ⟨claim10_missing_min_excluded tMissingMin 5 0 rfl rfl,
    by with_unfolding_all decide⟩

/-- Counting the present `net_rating` cells of a row list. -/
theorem netVals_length (l : List Row) :
    (netVals l).length = l.countP fun r => r.net_rating.isSome := by
  induction l with
  | nil => rfl
  | cons r rs ih =>
    unfold netVals at ih ⊢
    rw [List.filterMap_cons, List.countP_cons]
    cases hr : r.net_rating <;> simp [hr, ih]

/-- Partition identity behind the bucket counts: summing the per-bucket
counts of present `net_rating` cells over the five buckets counts exactly
the rows that have both a present `net_rating` and a present bucket. -/
theorem sum_bucket_counts (l : List Row) :
    (allBuckets.map fun b => (netVals (rowsInBucket l b)).length).sum =
      l.countP fun r => r.net_rating.isSome && r.minute_bucket.isSome := by
  induction l with
  | nil => rfl
  | cons r rs ih =>
    rw [List.countP_cons]
    have hsplit : ∀ b, rowsInBucket (r :: rs) b =
        if r.minute_bucket = some b then r :: rowsInBucket rs b
        else rowsInBucket rs b := by
      intro b
      unfold rowsInBucket
      rw [List.filter_cons]
      by_cases h : r.minute_bucket = some b <;> simp [h]
    simp only [allBuckets, List.map_cons, List.map_nil, List.sum_cons,
      List.sum_nil, hsplit] at ih ⊢
    rcases hn : r.net_rating with _ | v <;>
      rcases hb : r.minute_bucket with _ | (_ | _ | _ | _ | _) <;>
      simp [hb, hn, netVals, List.filterMap_cons] at ih ⊢ <;>
      omega

/-- Claim C5 (corrected form) — the per-bucket counts of `bucket_summary`
sum to the number of rows having BOTH a present `net_rating` and a present
`minute_bucket` (rows with a missing bucket belong to no group and are
dropped by the groupby, so they are not counted even when their
`net_rating` is present). -/
theorem claim5_bucket_counts_sum :
    ∀ t : Table, t.hasMinuteBucket = true → t.hasNetRating = true →
      t.hasMin = true →
      bucketCountSum t =
        some (t.rows.countP fun r =>
          r.net_rating.isSome && r.minute_bucket.isSome) := by
  intro t h1 h2 h3
  unfold bucketCountSum
  simp only [bucket_summary, h1, h2, h3, Bool.true_eq_false, if_false,
    Except.toOption, Option.map_some']
  rw [Option.some.injEq, List.map_map]
  exact sum_bucket_counts t.rows

/-- Witness for C5's amended statement: on the loaded four-row scenario
table the bucket counts sum to 4. -/
theorem claim5_bucket_counts_sum_witness :
    bucketCountSum tScenario6 = some 4 :=
  (claim5_bucket_counts_sum tScenario6 rfl rfl rfl).trans
    (by with_unfolding_all decide)

/-- Counterexample to C5 as stated: a table whose single row has
`net_rating` present but `min` (hence `minute_bucket`) missing has bucket
counts summing to 0, while the full table holds 1 row with a present
`net_rating`. -/
theorem claim5_counterexample :
    bucketCountSum tMissingMin = some 0 ∧
    tMissingMin.rows.countP (fun r => r.net_rating.isSome) = 1 := by
  with_unfolding_all decide

/-- Claim C9 — when the loader derives `minute_bucket` (five-label
categorical), `bucket_summary` emits exactly one row per bucket, all five
categories in categorical order, each reporting the count of qualifying
rows of that bucket — zero-count buckets included, with count 0. -/
theorem claim9_zero_buckets_emitted :
    ∀ t : Table, t.hasMinuteBucket = false → t.hasNetRating = true →
      t.hasMin = true →
      ∃ l, bucket_summary (load_data t) = .ok l ∧
        l.length = 5 ∧
        (l.map fun br => br.minute_bucket) = allBuckets ∧
        ∀ br ∈ l, br.lineups =
          (netVals (rowsInBucket (load_data t).rows br.minute_bucket)).length := by
  intro t h1 h2 h3
  have hl : (load_data t).hasMinuteBucket = true := by simp [load_data, h1]
  have hn : (load_data t).hasNetRating = true := by simp [load_data, h1, h2]
  have hm : (load_data t).hasMin = true := by simp [load_data, h1, h3]
  simp only [bucket_summary, hl, hn, hm, Bool.true_eq_false, if_false]
  refine ⟨_, rfl, by simp [allBuckets], ?_, ?_⟩
  · rw [List.map_map]
    simp [allBuckets]
  · intro br hbr
    rw [List.mem_map] at hbr
    obtain ⟨b, _, rfl⟩ := hbr
    rfl

/-- Witness for C9: one loaded row in the first bucket; the summary still
emits all five buckets, reporting counts [1, 0, 0, 0, 0]. -/
theorem claim9_zero_buckets_emitted_witness :
    (∃ l, bucket_summary (load_data tOneRow) = .ok l ∧
      l.length = 5 ∧
      (l.map fun br => br.minute_bucket) = allBuckets ∧
      ∀ br ∈ l, br.lineups =
        (netVals (rowsInBucket (load_data tOneRow).rows br.minute_bucket)).length) ∧
    (bucket_summary (load_data tOneRow)).toOption.map
        (fun l => l.map fun br => br.lineups) = some [1, 0, 0, 0, 0] :=
  ⟨claim9_zero_buckets_emitted tOneRow rfl rfl rfl, by with_unfolding_all decide⟩

/-- Claim C3 (corrected form) — on an empty table (all columns present)
`top_lineups_preview` is the only summary returning an empty result;
`overall_summary` returns count 0 with missing (NaN) averages, and
`bucket_summary`/`pace_offense_summary` return the five fixed buckets with
zero counts and missing means; when a needed column is absent a summary
raises (pandas `KeyError`) instead of returning an empty result — in
particular `pace_offense_summary` with `off_rating` absent. -/
theorem claim3_empty_and_missing_column :
    (∀ t : Table, t.hasMinuteBucket = true → t.hasNetRating = true →
        t.hasMin = true → t.hasPace = true → t.hasOffRating = true →
        t.rows = [] →
        overall_summary t = .ok
          { total_lineups := 0, avg_net_rating := none, avg_minutes := none } ∧
        bucket_summary t = .ok (allBuckets.map fun b =>
          { minute_bucket := b, lineups := 0,
            avg_net_rating := none, avg_minutes := none }) ∧
        pace_offense_summary t = .ok (allBuckets.map fun b =>
          { minute_bucket := b, lineups := 0,
            avg_pace := none, avg_off_rating := none }) ∧
        top_lineups_preview t 15 100 = .ok []) ∧
    (∀ t : Table, t.hasMinuteBucket = true → t.hasPace = true →
        t.hasOffRating = false →
        pace_offense_summary t = .error "KeyError: off_rating") := by
  constructor
  · intro t h1 h2 h3 h4 h5 hrows
    refine ⟨?_, ?_, ?_, ?_⟩
    · simp [overall_summary, h2, h3, hrows, netVals, minVals, mean]
    · simp [bucket_summary, h1, h2, h3, hrows, rowsInBucket, netVals,
        minVals, mean]
    · simp [pace_offense_summary, h1, h4, h5, hrows, rowsInBucket, mean]
    · simp [top_lineups_preview, h2, h3, hrows, List.insertionSort]
  · intro t h1 h2 h3
    simp [pace_offense_summary, h1, h2, h3]

/-- Witness for C3's amended statement at the empty table and at the
`off_rating`-less table. -/
theorem claim3_empty_and_missing_column_witness :
    (overall_summary tEmpty = .ok
        { total_lineups := 0, avg_net_rating := none, avg_minutes := none } ∧
      bucket_summary tEmpty = .ok (allBuckets.map fun b =>
        { minute_bucket := b, lineups := 0,
          avg_net_rating := none, avg_minutes := none }) ∧
      pace_offense_summary tEmpty = .ok (allBuckets.map fun b =>
        { minute_bucket := b, lineups := 0,
          avg_pace := none, avg_off_rating := none }) ∧
      top_lineups_preview tEmpty 15 100 = .ok []) ∧
    pace_offense_summary tNoOff = .error "KeyError: off_rating" :=
  ⟨claim3_empty_and_missing_column.1 tEmpty rfl rfl rfl rfl rfl rfl,
    claim3_empty_and_missing_column.2 tNoOff rfl rfl rfl⟩

/-- Counterexample to C3 as stated: with the `off_rating` column absent
(the column is optional per the loader), `pace_offense_summary` raises a
`KeyError` — it does not return an empty result. -/
theorem claim3_counterexample :
    pace_offense_summary tNoOff = .error "KeyError: off_rating" ∧
    pace_offense_summary tNoOff ≠ .ok [] := by
  with_unfolding_all decide

/-- Reduction of `mkContext` once the four summaries are known to succeed:
the context is exactly the four rendered summaries under the four fixed
section headers, in source order. -/
theorem mkContext_eq {t : Table} {o : Overall} {b : List BucketRow}
    {p : List PaceRow} {tl : List Row}
    (ho : overall_summary t = .ok o) (hb : bucket_summary t = .ok b)
    (hp : pace_offense_summary t = .ok p)
    (htl : top_lineups_preview t 15 100 = .ok tl) :
    mkContext t = .ok ("\nOverall summary:\n" ++ renderOverall o ++
      "\n\nBy minute bucket:\n" ++ renderBucketTable b ++
      "\n\n\nPace vs offensive rating by minute bucket:\n" ++ renderPaceTable p ++
      "\n\nTop lineups (includes group_name = players):\n" ++
      renderTopTable tl ++ "\n") := by
  unfold mkContext
  rw [ho, hb, hp, htl]
  rfl

/-- Claim C7 (corrected form) — the assembled context is a single text
block containing the four summaries in the fixed order Overall → Bucket →
Pace/Offense → Top Lineups, but it does NOT contain the instructional
preamble: the preamble is the `SYSTEM` string, sent as a separate leading
system message of the same payload, before the question and the context. -/
theorem claim7_context_structure :
    ∀ (t : Table) (q : String),
      t.hasMinuteBucket = true → t.hasNetRating = true → t.hasMin = true →
      t.hasPace = true → t.hasOffRating = true →
      ∃ ctx, mkContext t = .ok ctx ∧
        ask_messages t q =
          .ok [("system", SYSTEM), ("user", q), ("user", ctx)] ∧
        ∃ s1 s2 s3 s4,
          ctx = "\nOverall summary:\n" ++ s1 ++
            "\n\nBy minute bucket:\n" ++ s2 ++
            "\n\n\nPace vs offensive rating by minute bucket:\n" ++ s3 ++
            "\n\nTop lineups (includes group_name = players):\n" ++ s4 ++ "\n" := by
  intro t q h1 h2 h3 h4 h5
  obtain ⟨o, ho⟩ : ∃ o, overall_summary t = .ok o := by
    simp only [overall_summary, h2, h3, Bool.true_eq_false, if_false]
    exact ⟨_, rfl⟩
  obtain ⟨b, hb⟩ : ∃ b, bucket_summary t = .ok b := by
    simp only [bucket_summary, h1, h2, h3, Bool.true_eq_false, if_false]
    exact ⟨_, rfl⟩
  obtain ⟨p, hp⟩ : ∃ p, pace_offense_summary t = .ok p := by
    simp only [pace_offense_summary, h1, h4, h5, Bool.true_eq_false, if_false]
    exact ⟨_, rfl⟩
  have htl := top_lineups_ok h3 h2 15 100
  refine ⟨_, mkContext_eq ho hb hp htl, ?_, ?_⟩
  · unfold ask_messages
    rw [mkContext_eq ho hb hp htl]
    rfl
  · exact ⟨renderOverall o, renderBucketTable b, renderPaceTable p,
      renderTopTable _, rfl⟩

/-- Witness for C7's amended statement at the loaded scenario table and
the app's default question. -/
theorem claim7_context_structure_witness :
    ∃ ctx, mkContext tScenario6 = .ok ctx ∧
      ask_messages tScenario6 "Do high-minute lineups tend to be elite?" =
        .ok [("system", SYSTEM),
          ("user", "Do high-minute lineups tend to be elite?"), ("user", ctx)] ∧
      ∃ s1 s2 s3 s4,
        ctx = "\nOverall summary:\n" ++ s1 ++
          "\n\nBy minute bucket:\n" ++ s2 ++
          "\n\n\nPace vs offensive rating by minute bucket:\n" ++ s3 ++
          "\n\nTop lineups (includes group_name = players):\n" ++ s4 ++ "\n" :=
  claim7_context_structure tScenario6 "Do high-minute lineups tend to be elite?"
    rfl rfl rfl rfl rfl

/-- Counterexample to C7 as stated: for a concrete loaded table the context
assembles successfully and contains neither the `SYSTEM` preamble nor its
data-dictionary heading nor its use-only-the-context instruction (the
`subOccurs_iff` lemma ties the test to substring occurrence). -/
theorem claim7_counterexample :
    contextHasPreamble tScenario6 = some false := by
  with_unfolding_all decide

/-- Claim C8 — all summary operations and the context assembly are pure
functions of the table (and parameters), so running any of them twice on
the same arguments yields identical output; the embedding has no source of
nondeterminism because the code path from the cached frame to the context
string has none. -/
theorem claim8_determinism :
    ∀ (t : Table) (n : Nat) (m : Rat) (q : String),
      overall_summary t = overall_summary t ∧
      bucket_summary t = bucket_summary t ∧
      pace_offense_summary t = pace_offense_summary t ∧
      top_lineups_preview t n m = top_lineups_preview t n m ∧
      mkContext t = mkContext t ∧
      ask_messages t q = ask_messages t q :=
  fun _ _ _ _ => ⟨rfl, rfl, rfl, rfl, rfl, rfl⟩

end NBA
